import Mathlib

/-!
Verification of the db-ping concurrent polling/aggregation engine.

This file shallowly embeds the core of the `db_ping` package: the shared
counter structure created in `src/db_ping/__main__.py` (`counters`), the
loop bodies of the three continuous workers
(`src/db_ping/worker_ping.py`, `worker_reader.py`, `worker_writer.py`),
the one-shot status worker (`src/db_ping/worker_status.py`), and the
controller's reporting functions (`print_status`, `print_summary` in
`src/db_ping/__main__.py`).

Modelling conventions:
- wall-clock readings and latencies are rationals (`ℚ`); `time.time()`
  samples become explicit parameters;
- connection ids are naturals (MariaDB connection ids are unsigned);
- printed lines are represented structurally by the `Line` inductive,
  carrying the unrounded values interpolated into each format string
  (the `round(...)` calls in the Python are display-only);
- the concurrent run is an interleaving model: a run is a list of
  `Event`s (one per completed worker loop iteration, controller tick, or
  stop request) folded over the shared state by `step`.
-/

namespace DbPing

/-- So says one branch of the shared `counters` dict in
`src/db_ping/__main__.py` lines 304-324: per-worker connection id,
reconnect/connect count, sequence number and last latency.  The
`processlist_count` key is absent from the initial dict literal and is
created by the reader/writer workers on their first successful query, so
it is modelled as an `Option`. -/
structure WStats where
  id : Nat
  connects : Nat
  seq : Nat
  time : ℚ
  processlist_count : Option Int
deriving DecidableEq

/-- Shared `counters` dict from `src/db_ping/__main__.py` lines 304-324:
one `WStats` branch per continuous worker, plus the top-level print
counter `seq` (the global tick counter). -/
structure Counters where
  ping : WStats
  read : WStats
  write : WStats
  seq : Nat
deriving DecidableEq

/-- Initial per-worker branch: `{'id': 0, 'connects': 0, 'seq': 0, 'time': 0.0}`. -/
def initWStats : WStats :=
  { id := 0, connects := 0, seq := 0, time := 0, processlist_count := none }

/-- Initial `counters` value (`src/db_ping/__main__.py` lines 304-324):
all worker branches zeroed and the top-level print counter started at 1
(`'seq': 1,  # Start top-level print counter at 1`). -/
def initCounters : Counters :=
  { ping := initWStats, read := initWStats, write := initWStats, seq := 1 }

/-- Update of the `counters['ping']` branch by one iteration of the ping
worker loop body (`src/db_ping/worker_ping.py` lines 9-28).  `connId` is
`conn.connection_id`, `ok` tells whether `conn.ping()` raised a
`mariadb.Error`, `elapsed` is `time.time() - start`.  On success, if the
recorded id differs from the connection's id, the id is re-recorded and
`connects` incremented; `time` and `seq` are updated unconditionally. -/
def pingCycleStats (connId : Nat) (ok : Bool) (elapsed : ℚ) (w : WStats) : WStats :=
  let w := if ok then
      (if w.id ≠ connId then { w with id := connId, connects := w.connects + 1 } else w)
    else w
  let w := { w with time := elapsed }
  { w with seq := w.seq + 1 }

/-- Update of a `counters[...]` branch by one iteration of the reader or
writer worker loop body (`src/db_ping/worker_reader.py` lines 11-44,
`src/db_ping/worker_writer.py` lines 12-45; the two bodies are textually
identical apart from the branch they write to).  On a successful
`cur.execute`, the fetched row count is stored in `processlist_count`
and the connection-id/connects update runs; `time` and `seq` are updated
unconditionally. -/
def queryCycleStats (connId : Nat) (ok : Bool) (elapsed : ℚ) (rowCount : Int)
    (w : WStats) : WStats :=
  let w := if ok then
      let w := { w with processlist_count := some rowCount }
      if w.id ≠ connId then { w with id := connId, connects := w.connects + 1 } else w
    else w
  let w := { w with time := elapsed }
  { w with seq := w.seq + 1 }

/-- One ping worker iteration acting on the whole shared structure: the
ping worker writes only to `counters['ping']`. -/
def pingCycle (connId : Nat) (ok : Bool) (elapsed : ℚ) (c : Counters) : Counters :=
  { c with ping := pingCycleStats connId ok elapsed c.ping }

/-- One reader worker iteration: writes only to `counters['read']`. -/
def readCycle (connId : Nat) (ok : Bool) (elapsed : ℚ) (rowCount : Int)
    (c : Counters) : Counters :=
  { c with read := queryCycleStats connId ok elapsed rowCount c.read }

/-- One writer worker iteration: writes only to `counters['write']`. -/
def writeCycle (connId : Nat) (ok : Bool) (elapsed : ℚ) (rowCount : Int)
    (c : Counters) : Counters :=
  { c with write := queryCycleStats connId ok elapsed rowCount c.write }

/-- Sleep performed at the end of a ping worker iteration
(`src/db_ping/worker_ping.py` lines 33-34):
`if counters['write']['time'] < 1: time.sleep(1-counters['write']['time'])`.
Note the condition and the argument read the WRITE worker's time, not the
ping worker's own. -/
def pingSleepAmount (c : Counters) : ℚ :=
  if c.write.time < 1 then 1 - c.write.time else 0

/-- Sleep at the end of a reader worker iteration
(`src/db_ping/worker_reader.py` lines 49-50); it too reads
`counters['write']['time']`, not the reader's own time. -/
def readSleepAmount (c : Counters) : ℚ :=
  if c.write.time < 1 then 1 - c.write.time else 0

/-- Sleep at the end of a writer worker iteration
(`src/db_ping/worker_writer.py` lines 50-51); the writer reads its own
`counters['write']['time']`. -/
def writeSleepAmount (c : Counters) : ℚ :=
  if c.write.time < 1 then 1 - c.write.time else 0

/-- Structural representation of a printed line.  Each constructor
corresponds to one `print(...)` in the source; the fields hold the
unrounded values interpolated into the format string. -/
inductive Line where
  | pingFail (elapsed : ℚ) (err : String)
  | queryFail (elapsed : ℚ) (err : String)
  | reconnected
  | status (elapsed : ℚ) (tick : Nat) (pingTime : ℚ) (connects : Nat)
  | summaryHeader (host : String)
  | wallClock (elapsed : ℚ)
  | total (n : Nat)
  | pings (n : Nat) (sla : ℚ)
  | reads (n : Nat) (sla : ℚ)
  | writes (n : Nat) (sla : ℚ)
  | statusErr (err : String)
  | uptime (secs : Int)
  | clientConnection (host : String)
  | serverHostname (name : String)
  | maxConnections (v : String)
  | threadsConnected (v : String)
deriving DecidableEq

/-- One ping worker iteration together with the text it prints
(`src/db_ping/worker_ping.py` lines 9-28): on a `mariadb.Error` the
worker prints `'Ping failed after {} seconds with error: {}'` with the
elapsed time and the error text, and nothing otherwise.  The `except`
clause catches the error, so the iteration is total — no exception
leaves the loop body on an operation failure. -/
def pingCycleOut (connId : Nat) (ok : Bool) (err : String) (elapsed : ℚ)
    (c : Counters) : Counters × List Line :=
  (pingCycle connId ok elapsed c,
   if ok then [] else [Line.pingFail elapsed err])

/-- One reader worker iteration with its printed text
(`src/db_ping/worker_reader.py` lines 11-44): on a `mariadb.Error` it
prints `'Failed after {} seconds with error: {}'`. -/
def readCycleOut (connId : Nat) (ok : Bool) (err : String) (elapsed : ℚ)
    (rowCount : Int) (c : Counters) : Counters × List Line :=
  (readCycle connId ok elapsed rowCount c,
   if ok then [] else [Line.queryFail elapsed err])

/-- One writer worker iteration with its printed text
(`src/db_ping/worker_writer.py` lines 12-45). -/
def writeCycleOut (connId : Nat) (ok : Bool) (err : String) (elapsed : ℚ)
    (rowCount : Int) (c : Counters) : Counters × List Line :=
  (writeCycle connId ok elapsed rowCount c,
   if ok then [] else [Line.queryFail elapsed err])

/-- Embedding of `print_status(start, now, previous)` from
`src/db_ping/__main__.py` lines 89-114.  `startT` is `start` and `nowT`
the `time.time()` sample taken while printing.  The Python function
mutates its `now` argument (the live shared `counters` dict): it zeroes
`now['ping']['time']` when the ping sequence has not advanced since the
previous snapshot, and it increments `now['seq']` after printing; the
returned pair is the mutated dict together with the printed lines.  The
`'Database client reconnected'` line is printed when the ping or the
read connection id differs from the previous snapshot (the write id is
not compared). -/
def print_status (startT nowT : ℚ) (now previous : Counters) : Counters × List Line :=
  let now := if now.ping.seq = previous.ping.seq then
      { now with ping := { now.ping with time := 0 } }
    else now
  let recon : List Line :=
    if now.ping.id ≠ previous.ping.id ∨ now.read.id ≠ previous.read.id then
      [Line.reconnected]
    else []
  let statusLine := Line.status (nowT - startT) now.seq now.ping.time
    (1 + now.ping.connects + now.read.connects + now.write.connects)
  ({ now with seq := now.seq + 1 }, recon ++ [statusLine])

/-- Embedding of `print_summary(config, start, now, previous)` from
`src/db_ping/__main__.py` lines 117-123.  `host` is `config['host']`,
`nowT` the `time.time()` sample taken while printing.  The body only
reads `now`, so the state component of the result is the input
`counters` unchanged; each printed line carries the unrounded values,
with the SLA percentages computed as `100*(now[k]['seq']/now['seq'])`. -/
def print_summary (host : String) (startT nowT : ℚ) (now : Counters) :
    Counters × List Line :=
  (now,
   [Line.summaryHeader host,
    Line.wallClock (nowT - startT),
    Line.total now.seq,
    Line.pings now.ping.seq (100 * ((now.ping.seq : ℚ) / (now.seq : ℚ))),
    Line.reads now.read.seq (100 * ((now.read.seq : ℚ) / (now.seq : ℚ))),
    Line.writes now.write.seq (100 * ((now.write.seq : ℚ) / (now.seq : ℚ)))])

/-- One atomic event of the interleaved run: a completed loop iteration
of one of the three continuous workers (with the data its database call
produced), one controller tick (`time.sleep(1); print_status(...);
old_counters = copy.deepcopy(counters)` in the main loop,
`src/db_ping/__main__.py` lines 370-381), or a stop request (operator
interrupt or the thread-death check, both of which set
`control['run'] = False`). -/
inductive Event where
  | ping (connId : Nat) (ok : Bool) (err : String) (elapsed : ℚ)
  | read (connId : Nat) (ok : Bool) (err : String) (elapsed : ℚ) (rowCount : Int)
  | write (connId : Nat) (ok : Bool) (err : String) (elapsed : ℚ) (rowCount : Int)
  | tick (nowT : ℚ)
  | stop
deriving DecidableEq

/-- Shared state of a run: the live `counters` dict, the controller's
`old_counters` snapshot, the `control['run']` flag, and the recorded
start time. -/
structure RunState where
  counters : Counters
  prev : Counters
  run : Bool
  startT : ℚ
deriving DecidableEq

/-- State right after startup (`src/db_ping/__main__.py` lines 296-327,
368): fresh `counters`, `old_counters = copy.deepcopy(counters)`,
`control['run'] = True`, and the start time reset just before the tick
loop. -/
def initState (startT : ℚ) : RunState :=
  { counters := initCounters, prev := initCounters, run := true, startT := startT }

/-- Interleaving small-step semantics of the run.  Worker iterations and
controller ticks happen only while `control['run']` holds (each loop
checks the flag at its top); after a tick the controller stores the
just-printed (and mutated) counters as the new previous snapshot. -/
def step (s : RunState) (e : Event) : RunState :=
  match e with
  | .stop => { s with run := false }
  | .ping connId ok _ elapsed =>
      if s.run then { s with counters := pingCycle connId ok elapsed s.counters } else s
  | .read connId ok _ elapsed rowCount =>
      if s.run then { s with counters := readCycle connId ok elapsed rowCount s.counters } else s
  | .write connId ok _ elapsed rowCount =>
      if s.run then { s with counters := writeCycle connId ok elapsed rowCount s.counters } else s
  | .tick nowT =>
      if s.run then
        let c := (print_status s.startT nowT s.counters s.prev).1
        { s with counters := c, prev := c }
      else s

/-- A run is a list of events folded over the initial state. -/
def runEvents (s : RunState) (evs : List Event) : RunState :=
  evs.foldl step s

/-- Number of completed ping worker iterations in a run whose recorded
latency was at least one second (the iterations the specification's
zero-sleep allowance refers to). -/
def pingSlowCount (evs : List Event) : Nat :=
  (evs.filter (fun e => match e with
    | .ping _ _ _ elapsed => 1 ≤ elapsed
    | _ => false)).length

/-- Which of a worker's database handles its `run` function has closed
by the time the function is left. -/
structure Released where
  conn : Bool
  cur : Bool
deriving DecidableEq

/-- What one trip round a worker loop amounts to for the resource model:
either a normal iteration (its database call succeeded or raised a
`mariadb.Error` that the `except` clause caught), or an unrecovered
exception escaping the loop body (anything the `except mariadb.Error`
clause does not catch, e.g. an error raised while iterating the cursor
in the `else` block). -/
inductive CycleOutcome where
  | cycle (connId : Nat) (ok : Bool) (err : String) (elapsed : ℚ) (rowCount : Int)
  | escape (err : String)
deriving DecidableEq

/-- Run function of the ping worker (`src/db_ping/worker_ping.py`):
the whole loop sits inside `with closing(conn):`, so the connection is
closed on every exit path, normal exit and escaping exception alike; the
ping worker creates no cursor, recorded here as a vacuously released
cursor handle.  The result is the final counters, the release state of
the handles, and the escaped error if any. -/
def pingRunFull : List CycleOutcome → Counters → Counters × Released × Option String
  | [], c => (c, { conn := true, cur := true }, none)
  | .escape err :: _, c => (c, { conn := true, cur := true }, some err)
  | .cycle connId ok _ elapsed _ :: rest, c =>
      pingRunFull rest (pingCycle connId ok elapsed c)

/-- Run function of the reader worker (`src/db_ping/worker_reader.py`):
`cur = conn.cursor()` is taken without a context manager and the
trailing `cur.close(); conn.close()` statements sit after the loop, so
they run only when the loop exits normally on the run flag; an
unrecovered exception propagates out of `run` with neither handle
closed. -/
def readerRunFull : List CycleOutcome → Counters → Counters × Released × Option String
  | [], c => (c, { conn := true, cur := true }, none)
  | .escape err :: _, c => (c, { conn := false, cur := false }, some err)
  | .cycle connId ok _ elapsed rowCount :: rest, c =>
      readerRunFull rest (readCycle connId ok elapsed rowCount c)

/-- Run function of the writer worker (`src/db_ping/worker_writer.py`):
the loop sits inside `with closing(conn), closing(conn.cursor()) as cur:`,
so both handles are closed on every exit path. -/
def writerRunFull : List CycleOutcome → Counters → Counters × Released × Option String
  | [], c => (c, { conn := true, cur := true }, none)
  | .escape err :: _, c => (c, { conn := true, cur := true }, some err)
  | .cycle connId ok _ elapsed rowCount :: rest, c =>
      writerRunFull rest (writeCycle connId ok elapsed rowCount c)

/-- Resource behaviour of the status worker
(`src/db_ping/worker_status.py`): `cur = conn.cursor()` has no context
manager and `cur.close()` is the last statement, reached only when no
exception escapes the diagnostic sequence; the function never closes
`conn` at all (it borrows the controller's own connection, which
`src/db_ping/__main__.py` line 400 closes). -/
def statusRunReleased (escaped : Bool) : Released :=
  { conn := false, cur := !escaped }

/-- Outcome of each of the five diagnostic queries run by the status
worker (`src/db_ping/worker_status.py` lines 29-76): either the value
fetched after a successful `cur.execute`, or the text of the
`mariadb.Error` the enclosing `try` caught. -/
structure StatusResults where
  uptime : Except String Int
  clientHost : Except String String
  hostname : Except String String
  maxConn : Except String String
  threadsConn : Except String String

/-- Lines produced by the uptime diagnostic block
(`src/db_ping/worker_status.py` lines 29-36): `Error: {e}` on a caught
`mariadb.Error`, the uptime line on success unless quiet mode is set. -/
def uptimeContrib (quiet : Bool) : Except String Int → List Line
  | .error e => [Line.statusErr e]
  | .ok v => if quiet then [] else [Line.uptime v]

/-- Lines produced by one of the four string-valued diagnostic blocks of
`src/db_ping/worker_status.py` (lines 38-48, 50-57, 59-66, 69-76), each
of which has the same `try`/`except`/`else` shape: `Error: {e}` on a
caught `mariadb.Error`, the fetched value's line on success unless quiet
mode is set. -/
def diagContrib (quiet : Bool) (mk : String → Line) : Except String String → List Line
  | .error e => [Line.statusErr e]
  | .ok v => if quiet then [] else [mk v]

/-- The status worker's diagnostic sequence
(`src/db_ping/worker_status.py` lines 29-76) as it executes: five
consecutive independent `try`/`except`/`else` blocks, each appending its
own lines to the output.  `quiet` is `control['config']['quiet']`. -/
def statusRun (quiet : Bool) (r : StatusResults) : List Line :=
  let out : List Line := []
  let out := out ++ (match r.uptime with
    | .error e => [Line.statusErr e]
    | .ok v => if quiet then [] else [Line.uptime v])
  let out := out ++ (match r.clientHost with
    | .error e => [Line.statusErr e]
    | .ok v => if quiet then [] else [Line.clientConnection v])
  let out := out ++ (match r.hostname with
    | .error e => [Line.statusErr e]
    | .ok v => if quiet then [] else [Line.serverHostname v])
  let out := out ++ (match r.maxConn with
    | .error e => [Line.statusErr e]
    | .ok v => if quiet then [] else [Line.maxConnections v])
  let out := out ++ (match r.threadsConn with
    | .error e => [Line.statusErr e]
    | .ok v => if quiet then [] else [Line.threadsConnected v])
  out

theorem pingCycleStats_time (connId : Nat) (ok : Bool) (elapsed : ℚ) (w : WStats) :
    (pingCycleStats connId ok elapsed w).time = elapsed := by
  cases ok <;> by_cases h : w.id = connId <;> simp [pingCycleStats, h]

theorem pingCycleStats_seq (connId : Nat) (ok : Bool) (elapsed : ℚ) (w : WStats) :
    (pingCycleStats connId ok elapsed w).seq = w.seq + 1 := by
  cases ok <;> by_cases h : w.id = connId <;> simp [pingCycleStats, h]

theorem queryCycleStats_time (connId : Nat) (ok : Bool) (elapsed : ℚ) (rowCount : Int)
    (w : WStats) : (queryCycleStats connId ok elapsed rowCount w).time = elapsed := by
  cases ok <;> by_cases h : w.id = connId <;> simp [queryCycleStats, h]

theorem queryCycleStats_seq (connId : Nat) (ok : Bool) (elapsed : ℚ) (rowCount : Int)
    (w : WStats) : (queryCycleStats connId ok elapsed rowCount w).seq = w.seq + 1 := by
  cases ok <;> by_cases h : w.id = connId <;> simp [queryCycleStats, h]

theorem pingCycleStats_connects (connId : Nat) (ok : Bool) (elapsed : ℚ) (w : WStats) :
    (pingCycleStats connId ok elapsed w).connects =
      w.connects + (if (pingCycleStats connId ok elapsed w).id ≠ w.id then 1 else 0) := by
  cases ok <;> by_cases h : w.id = connId <;>
    simp [pingCycleStats, h] <;> simp [Ne.symm h]

theorem queryCycleStats_connects (connId : Nat) (ok : Bool) (elapsed : ℚ) (rowCount : Int)
    (w : WStats) :
    (queryCycleStats connId ok elapsed rowCount w).connects =
      w.connects + (if (queryCycleStats connId ok elapsed rowCount w).id ≠ w.id then 1 else 0) := by
  cases ok <;> by_cases h : w.id = connId <;>
    simp [queryCycleStats, h] <;> simp [Ne.symm h]

/-- Counters seen by the failing-input evaluation of C1: the ping worker
just completed its operation in 0.01 s while the write worker's last
recorded latency is 2 s. -/
def c1State : Counters :=
  { initCounters with
      ping := { initWStats with time := 1/100 },
      write := { initWStats with time := 2 } }

/-- Variant of the C1 failing input with the write latency at 0.5 s. -/
def c1StateB : Counters :=
  { initCounters with
      ping := { initWStats with time := 1/100 },
      write := { initWStats with time := 1/2 } }

/-- C1: the claim says each worker sleeps `max(0, 1 − its own
lastLatency)`.  The code keys every worker's sleep to
`counters['write']['time']` (`worker_ping.py` lines 33-34 and
`worker_reader.py` lines 49-50 read the write branch), so a ping worker
whose own latency is 0.01 s sleeps 0 s when the write latency is 2 s and
0.5 s when the write latency is 0.5 s, never the claimed 0.99 s. -/
theorem ping_sleep_keyed_to_write_time :
    pingSleepAmount c1State = 0 ∧
    readSleepAmount c1State = 0 ∧
    max 0 (1 - c1State.ping.time) = 99/100 ∧
    pingSleepAmount c1StateB = 1/2 ∧
    max 0 (1 - c1StateB.ping.time) = 99/100 ∧
    ((1 : ℚ)/2 ≠ 99/100) ∧ ((0 : ℚ) ≠ 99/100) := by
  refine ⟨?_, ?_, ?_, ?_, ?_, by norm_num, by norm_num⟩ <;>
    norm_num [pingSleepAmount, readSleepAmount, c1State, c1StateB,
      initCounters, initWStats, max_def]

/-- C3 counterexample: three always-successful 10 ms ping cycles on the
unchanging connection identity 1 end with `seq = 3` but
`connects = 1`, not 0: the initial recorded id is the sentinel 0, so
recording the first real connection id already counts as a connect. -/
theorem first_connection_counts_as_connect :
    (pingCycle 1 true (1/100) (pingCycle 1 true (1/100)
        (pingCycle 1 true (1/100) initCounters))).ping.seq = 3 ∧
    (pingCycle 1 true (1/100) (pingCycle 1 true (1/100)
        (pingCycle 1 true (1/100) initCounters))).ping.connects = 1 := by
  constructor <;> rfl

/-- C3 (amended): `connects` increments by exactly 1 each time the
recorded connection identity changes and by 0 otherwise, for the ping
worker and the reader/writer workers alike; three always-successful
10 ms ping cycles on an unchanging identity `connId` end with
`seq = 3` and `connects = 0` when `connId` is the initial sentinel 0,
and `connects = 1` otherwise (the first recording of a real id counts). -/
theorem reconnect_increment_characterization :
    (∀ connId ok elapsed w, (pingCycleStats connId ok elapsed w).connects =
        w.connects + (if (pingCycleStats connId ok elapsed w).id ≠ w.id then 1 else 0)) ∧
    (∀ connId ok elapsed rowCount w,
      (queryCycleStats connId ok elapsed rowCount w).connects =
        w.connects +
          (if (queryCycleStats connId ok elapsed rowCount w).id ≠ w.id then 1 else 0)) ∧
    (∀ connId : Nat,
      (pingCycle connId true (1/100) (pingCycle connId true (1/100)
          (pingCycle connId true (1/100) initCounters))).ping.seq = 3 ∧
      (pingCycle connId true (1/100) (pingCycle connId true (1/100)
          (pingCycle connId true (1/100) initCounters))).ping.connects =
        (if connId = 0 then 0 else 1)) := by
  refine ⟨pingCycleStats_connects, queryCycleStats_connects, ?_⟩
  intro connId
  by_cases h : connId = 0 <;>
    simp [pingCycle, pingCycleStats, initCounters, initWStats, h] <;>
    simp [Ne.symm h]

/-- C6: a cycle whose database operation raises a `mariadb.Error` is
recovered inside the worker: it produces exactly one log line carrying
the elapsed time and the error text, the iteration is total (no
exception leaves the loop body), the loop continues with the next
outcome, and `time` and `seq` are updated exactly as a successful cycle
updates them. -/
theorem operation_failure_recovered_locally :
    ∀ (connId : Nat) (err : String) (elapsed : ℚ) (c : Counters),
      (pingCycleOut connId false err elapsed c).2 = [Line.pingFail elapsed err] ∧
      (pingCycleOut connId false err elapsed c).1.ping.time = elapsed ∧
      (pingCycleOut connId false err elapsed c).1.ping.seq = c.ping.seq + 1 ∧
      (pingCycle connId true elapsed c).ping.time = elapsed ∧
      (pingCycle connId true elapsed c).ping.seq = c.ping.seq + 1 ∧
      (∀ (rowCount : Int) (rest : List CycleOutcome),
        (readCycleOut connId false err elapsed rowCount c).2 =
          [Line.queryFail elapsed err] ∧
        (readCycleOut connId false err elapsed rowCount c).1.read.time = elapsed ∧
        (readCycleOut connId false err elapsed rowCount c).1.read.seq = c.read.seq + 1 ∧
        (readCycle connId true elapsed rowCount c).read.time = elapsed ∧
        (readCycle connId true elapsed rowCount c).read.seq = c.read.seq + 1 ∧
        (writeCycleOut connId false err elapsed rowCount c).2 =
          [Line.queryFail elapsed err] ∧
        (writeCycleOut connId false err elapsed rowCount c).1.write.time = elapsed ∧
        (writeCycleOut connId false err elapsed rowCount c).1.write.seq = c.write.seq + 1 ∧
        pingRunFull (CycleOutcome.cycle connId false err elapsed rowCount :: rest) c =
          pingRunFull rest (pingCycle connId false elapsed c) ∧
        readerRunFull (CycleOutcome.cycle connId false err elapsed rowCount :: rest) c =
          readerRunFull rest (readCycle connId false elapsed rowCount c) ∧
        writerRunFull (CycleOutcome.cycle connId false err elapsed rowCount :: rest) c =
          writerRunFull rest (writeCycle connId false elapsed rowCount c)) := by
  intro connId err elapsed c
  refine ⟨rfl, ?_, ?_, ?_, ?_, ?_⟩
  · exact pingCycleStats_time connId false elapsed c.ping
  · exact pingCycleStats_seq connId false elapsed c.ping
  · exact pingCycleStats_time connId true elapsed c.ping
  · exact pingCycleStats_seq connId true elapsed c.ping
  intro rowCount rest
  exact ⟨rfl,
    queryCycleStats_time connId false elapsed rowCount c.read,
    queryCycleStats_seq connId false elapsed rowCount c.read,
    queryCycleStats_time connId true elapsed rowCount c.read,
    queryCycleStats_seq connId true elapsed rowCount c.read,
    rfl,
    queryCycleStats_time connId false elapsed rowCount c.write,
    queryCycleStats_seq connId false elapsed rowCount c.write,
    rfl, rfl, rfl⟩

theorem print_status_state (startT nowT : ℚ) (now previous : Counters) :
    (print_status startT nowT now previous).1.seq = now.seq + 1 ∧
    (print_status startT nowT now previous).1.ping.seq = now.ping.seq ∧
    (print_status startT nowT now previous).1.ping.id = now.ping.id ∧
    (print_status startT nowT now previous).1.ping.connects = now.ping.connects ∧
    (print_status startT nowT now previous).1.ping.processlist_count =
      now.ping.processlist_count ∧
    (print_status startT nowT now previous).1.ping.time =
      (if now.ping.seq = previous.ping.seq then 0 else now.ping.time) ∧
    (print_status startT nowT now previous).1.read = now.read ∧
    (print_status startT nowT now previous).1.write = now.write := by
  by_cases h : now.ping.seq = previous.ping.seq <;> simp [print_status, h]

/-- Counters used as the C4 counterexample input: the freshly started
state with a recorded ping latency of 0.5 s. -/
def c4Now : Counters :=
  { initCounters with ping := { initWStats with time := 1/2 } }

/-- C4 counterexample: producing one tick line is not free of side
effects on the counters — `print_status` increments the global tick
counter `counters['seq']` from 1 to 2 and zeroes the ping worker's
recorded latency (the ping sequence has not advanced since the previous
snapshot), so the resulting counters differ from the input. -/
theorem print_status_mutates_counters :
    (print_status 0 5 c4Now initCounters).1.seq = 2 ∧
    c4Now.seq = 1 ∧
    (print_status 0 5 c4Now initCounters).1.ping.time = 0 ∧
    c4Now.ping.time = 1/2 ∧
    (print_status 0 5 c4Now initCounters).1 ≠ c4Now := by
  refine ⟨rfl, rfl, rfl, rfl, ?_⟩
  intro h
  have := congrArg Counters.seq h
  simp [c4Now, initCounters, print_status, initWStats] at this

/-- C4 (amended): the tick printing stage is not side-effect free — it
increments the global tick counter by exactly 1 and replaces the ping
worker's recorded latency by 0 exactly when the ping sequence has not
advanced since the previous snapshot, leaving every other counter field
unchanged; the summary printing stage leaves the counters entirely
unchanged. -/
theorem print_status_frame_condition :
    (∀ (startT nowT : ℚ) (now previous : Counters),
      (print_status startT nowT now previous).1.seq = now.seq + 1 ∧
      (print_status startT nowT now previous).1.ping.seq = now.ping.seq ∧
      (print_status startT nowT now previous).1.ping.id = now.ping.id ∧
      (print_status startT nowT now previous).1.ping.connects = now.ping.connects ∧
      (print_status startT nowT now previous).1.ping.processlist_count =
        now.ping.processlist_count ∧
      (print_status startT nowT now previous).1.ping.time =
        (if now.ping.seq = previous.ping.seq then 0 else now.ping.time) ∧
      (print_status startT nowT now previous).1.read = now.read ∧
      (print_status startT nowT now previous).1.write = now.write) ∧
    (∀ (host : String) (startT nowT : ℚ) (c : Counters),
      (print_summary host startT nowT c).1 = c) :=
  ⟨print_status_state, fun _ _ _ _ => rfl⟩

/-- Previous snapshot for the C5 scenario: after tick 1 the three
continuous workers have recorded connection ids 3, 4 and 5. -/
def c5Prev : Counters :=
  { initCounters with
      ping := { initWStats with id := 3 },
      read := { initWStats with id := 4 },
      write := { initWStats with id := 5 } }

/-- Counters at tick 2 of the C5 scenario: between the ticks the writer
worker completed one successful 10 ms cycle on a new connection id 7 and
recorded the identity change. -/
def c5Now : Counters := writeCycle 7 true (1/100) 42 c5Prev

/-- C5: the write worker's `connects` does go from 0 to 1 when its
connection identity changes between the ticks, but the tick line does
not indicate the reconnect — `print_status` (`src/db_ping/__main__.py`
lines 94-96) compares only the ping and read ids against the previous
snapshot, so no `Database client reconnected` line is printed for a
write-only identity change. -/
theorem write_reconnect_not_indicated :
    c5Prev.write.connects = 0 ∧
    c5Now.write.connects = 1 ∧
    c5Now.write.id ≠ c5Prev.write.id ∧
    c5Now.ping.id = c5Prev.ping.id ∧
    c5Now.read.id = c5Prev.read.id ∧
    Line.reconnected ∉ (print_status 0 2 c5Now c5Prev).2 := by
  refine ⟨rfl, rfl, by decide, rfl, rfl, by decide⟩

/-- C7: the status worker's five diagnostic blocks are independent: the
output of the whole sequence is the concatenation of the five blocks'
own outputs, each block depending only on its own query's outcome, and a
block whose query failed contributes exactly its own one `Error:` line —
so any subset of the diagnostics may fail without preventing the others
from executing and reporting. -/
theorem status_diagnostics_independent :
    (∀ (quiet : Bool) (r : StatusResults),
      statusRun quiet r =
        uptimeContrib quiet r.uptime ++
        diagContrib quiet Line.clientConnection r.clientHost ++
        diagContrib quiet Line.serverHostname r.hostname ++
        diagContrib quiet Line.maxConnections r.maxConn ++
        diagContrib quiet Line.threadsConnected r.threadsConn) ∧
    (∀ (quiet : Bool) (e : String),
      uptimeContrib quiet (Except.error e) = [Line.statusErr e] ∧
      ∀ mk : String → Line, diagContrib quiet mk (Except.error e) = [Line.statusErr e]) := by
  constructor
  · intro quiet r
    obtain ⟨u, ch, hn, mc, tc⟩ := r
    cases u <;> cases ch <;> cases hn <;> cases mc <;> cases tc <;>
      simp [statusRun, uptimeContrib, diagContrib]
  · intro quiet e
    exact ⟨rfl, fun mk => rfl⟩

/-- C9: for a fixed final snapshot, host and recorded times, invoking
the summary formatter leaves the counters unchanged and invoking it a
second time on the result yields the identical text block. -/
theorem print_summary_idempotent :
    ∀ (host : String) (startT nowT : ℚ) (c : Counters),
      (print_summary host startT nowT c).1 = c ∧
      (print_summary host startT nowT ((print_summary host startT nowT c).1)).2 =
        (print_summary host startT nowT c).2 := by
  intro host startT nowT c
  exact ⟨rfl, rfl⟩

theorem counters_step_mono (s : RunState) (e : Event) :
    s.counters.ping.seq ≤ (step s e).counters.ping.seq ∧
    s.counters.read.seq ≤ (step s e).counters.read.seq ∧
    s.counters.write.seq ≤ (step s e).counters.write.seq ∧
    s.counters.seq ≤ (step s e).counters.seq := by
  cases e with
  | stop => simp [step]
  | ping connId ok err elapsed =>
      by_cases h : s.run <;>
        simp [step, h, pingCycle, pingCycleStats_seq]
  | read connId ok err elapsed rowCount =>
      by_cases h : s.run <;>
        simp [step, h, readCycle, queryCycleStats_seq]
  | write connId ok err elapsed rowCount =>
      by_cases h : s.run <;>
        simp [step, h, writeCycle, queryCycleStats_seq]
  | tick nowT =>
      by_cases h : s.run
      · have hs := print_status_state s.startT nowT s.counters s.prev
        simp only [step, h, if_true]
        refine ⟨le_of_eq hs.2.1.symm, le_of_eq (congrArg WStats.seq hs.2.2.2.2.2.2.1).symm,
          le_of_eq (congrArg WStats.seq hs.2.2.2.2.2.2.2).symm, ?_⟩
        rw [hs.1]
        omega
      · simp [step, h]

theorem counters_run_mono (s : RunState) (evs : List Event) :
    s.counters.ping.seq ≤ (runEvents s evs).counters.ping.seq ∧
    s.counters.read.seq ≤ (runEvents s evs).counters.read.seq ∧
    s.counters.write.seq ≤ (runEvents s evs).counters.write.seq ∧
    s.counters.seq ≤ (runEvents s evs).counters.seq := by
  induction evs generalizing s with
  | nil => simp [runEvents]
  | cons e rest ih =>
      have h1 := counters_step_mono s e
      have h2 := ih (step s e)
      have hr : runEvents s (e :: rest) = runEvents (step s e) rest := rfl
      rw [hr]
      exact ⟨le_trans h1.1 h2.1, le_trans h1.2.1 h2.2.1,
        le_trans h1.2.2.1 h2.2.2.1, le_trans h1.2.2.2 h2.2.2.2⟩

/-- Events of the C2 counterexample run: two consecutive successful
10 ms ping worker iterations before the controller's first tick (the
ping worker spins without sleeping whenever the write worker's recorded
latency is at least one second, and even paced iterations can complete
twice before the first tick fires). -/
def c2Events : List Event :=
  [Event.ping 1 true "" (1/100), Event.ping 1 true "" (1/100)]

/-- C2 counterexample: in the reachable state after two completed ping
iterations and no tick, the ping sequence is 2 while the global tick
counter is still 1, so the SLA percentage `100 * sequence / tick` is
200 > 100, and the sequence exceeds the tick counter by more than the
number of ping iterations whose latency was at least one second (both
iterations took 0.01 s, so that number is 0). -/
theorem sla_percentage_can_exceed_100 :
    (runEvents (initState 0) c2Events).counters.ping.seq = 2 ∧
    (runEvents (initState 0) c2Events).counters.seq = 1 ∧
    pingSlowCount c2Events = 0 ∧
    ¬ (100 * ((runEvents (initState 0) c2Events).counters.ping.seq : ℚ) /
        ((runEvents (initState 0) c2Events).counters.seq : ℚ) ≤ 100) ∧
    (runEvents (initState 0) c2Events).counters.seq + pingSlowCount c2Events <
      (runEvents (initState 0) c2Events).counters.ping.seq := by
  have e1 : (runEvents (initState 0) c2Events).counters.ping.seq = 2 := rfl
  have e2 : (runEvents (initState 0) c2Events).counters.seq = 1 := rfl
  have e3 : pingSlowCount c2Events = 0 := by
    norm_num [pingSlowCount, c2Events, List.filter]
  refine ⟨e1, e2, e3, ?_, ?_⟩
  · rw [e1, e2]
    norm_num
  · rw [e1, e2, e3]
    omega

/-- C2 (amended): along every run, every worker kind's sequence counter
and the global tick counter are non-decreasing; the bounds of the
original claim do not hold — the per-worker sequence is uncapped and can
exceed the tick counter (and drive the SLA percentage above 100) even
when no iteration's latency reached one second. -/
theorem sequence_counters_monotone :
    ∀ (startT : ℚ) (evs tail : List Event),
      (runEvents (initState startT) evs).counters.ping.seq ≤
        (runEvents (initState startT) (evs ++ tail)).counters.ping.seq ∧
      (runEvents (initState startT) evs).counters.read.seq ≤
        (runEvents (initState startT) (evs ++ tail)).counters.read.seq ∧
      (runEvents (initState startT) evs).counters.write.seq ≤
        (runEvents (initState startT) (evs ++ tail)).counters.write.seq ∧
      (runEvents (initState startT) evs).counters.seq ≤
        (runEvents (initState startT) (evs ++ tail)).counters.seq := by
  intro startT evs tail
  have hr : runEvents (initState startT) (evs ++ tail) =
      runEvents (runEvents (initState startT) evs) tail := by
    simp [runEvents, List.foldl_append]
  rw [hr]
  exact counters_run_mono (runEvents (initState startT) evs) tail

/-- C10: the global tick counter starts at 1 and never decreases, so at
every reachable state of a run it is at least 1 and the SLA divisions of
the final summary (which divide by it) never divide by zero, whichever
termination path leads to the summary. -/
theorem tick_counter_positive :
    ∀ (startT : ℚ) (evs : List Event),
      (initState startT).counters.seq = 1 ∧
      1 ≤ (runEvents (initState startT) evs).counters.seq ∧
      (((runEvents (initState startT) evs).counters.seq : ℚ)) ≠ 0 := by
  intro startT evs
  have h := (counters_run_mono (initState startT) evs).2.2.2
  have h1 : (initState startT).counters.seq = 1 := rfl
  rw [h1] at h
  exact ⟨rfl, h, Nat.cast_ne_zero.mpr (by omega)⟩

theorem pingRunFull_released (outcomes : List CycleOutcome) (c : Counters) :
    (pingRunFull outcomes c).2.1 = { conn := true, cur := true } := by
  induction outcomes generalizing c with
  | nil => rfl
  | cons o rest ih =>
      cases o with
      | escape err => rfl
      | cycle connId ok err elapsed rowCount => exact ih _

theorem writerRunFull_released (outcomes : List CycleOutcome) (c : Counters) :
    (writerRunFull outcomes c).2.1 = { conn := true, cur := true } := by
  induction outcomes generalizing c with
  | nil => rfl
  | cons o rest ih =>
      cases o with
      | escape err => rfl
      | cycle connId ok err elapsed rowCount => exact ih _

theorem readerRunFull_released (outcomes : List CycleOutcome) (c : Counters) :
    (readerRunFull outcomes c).2.1 =
      (if (readerRunFull outcomes c).2.2.isSome then
        ({ conn := false, cur := false } : Released)
      else { conn := true, cur := true }) := by
  induction outcomes generalizing c with
  | nil => rfl
  | cons o rest ih =>
      cases o with
      | escape err => rfl
      | cycle connId ok err elapsed rowCount => exact ih _

/-- C8 counterexample: an unrecovered error escaping the reader worker's
loop leaves both its cursor and its connection unreleased (the
`cur.close(); conn.close()` statements sit after the loop with no
context manager); and the status worker never closes its connection
itself even on the normal path. -/
theorem reader_escape_leaks_handles :
    (readerRunFull [CycleOutcome.escape "boom"] initCounters).2.2 = some "boom" ∧
    (readerRunFull [CycleOutcome.escape "boom"] initCounters).2.1.conn = false ∧
    (readerRunFull [CycleOutcome.escape "boom"] initCounters).2.1.cur = false ∧
    (statusRunReleased false).conn = false :=
  ⟨rfl, rfl, rfl, rfl⟩

/-- C8 (amended): the ping and writer workers release their handles
unconditionally on every exit path (their loops sit inside
`with closing(...)` blocks); the reader worker releases its cursor and
connection only when the loop exits normally on the run flag and leaks
both when an unrecovered error escapes; the status worker closes only
its cursor, only on the normal path, and never closes its connection
itself. -/
theorem release_behaviour_per_worker :
    ∀ (outcomes : List CycleOutcome) (c : Counters) (escaped : Bool),
      (pingRunFull outcomes c).2.1 = { conn := true, cur := true } ∧
      (writerRunFull outcomes c).2.1 = { conn := true, cur := true } ∧
      (readerRunFull outcomes c).2.1 =
        (if (readerRunFull outcomes c).2.2.isSome then
          ({ conn := false, cur := false } : Released)
        else { conn := true, cur := true }) ∧
      statusRunReleased escaped = { conn := false, cur := !escaped } := by
  intro outcomes c escaped
  exact ⟨pingRunFull_released outcomes c, writerRunFull_released outcomes c,
    readerRunFull_released outcomes c, rfl⟩

end DbPing
